import Mathlib

/-!
# Verification of the weather-plot normalization pipeline (`utils.py`)

Shallow embedding of the pure core of `src/utils.py`:
wind vector conversions (`md2vect`, `vect2md`), hydrostatic pressure
adjustment (`bpr_adjust`), specific humidity (`rh2q`), the ship header
parser (`Ship.parse_headers`), the sentinel/coercion steps and twinned
sensor fusion of `Ship.process_data`, and the buoy raw-line parsing of
`Buoy.parse_data`.

Python floats are modelled as real numbers (`ℝ`) for the physics
formulas and as rationals (`ℚ`) where exact evaluation is needed;
missing values (NaN) are modelled as `none` in `Option`.
-/

namespace WeatherUtils

/-! ## Python string primitives

Executable models of the Python string operations the source uses:
`str.split(sep)` for a one-character separator, `str.split()` (split on
whitespace runs, dropping empty tokens), and `str.strip()`.  They are
written by structural recursion on the character list so that `decide`
and `rfl` can evaluate them. -/

/-- `str.split(sep)` on a character list: splits at every occurrence of
`sep`, keeping empty pieces (Python semantics: `"a--b".split("-") =
["a","","b"]`, `"ab".split("-") = ["ab"]`). -/
def splitOnCharList (sep : Char) : List Char → List (List Char)
  | [] => [[]]
  | c :: rest =>
    if c = sep then
      [] :: splitOnCharList sep rest
    else
      match splitOnCharList sep rest with
      | [] => [[c]]
      | h :: t => (c :: h) :: t

/-- Python `s.split(sep)` for a single-character separator. -/
def pySplit (sep : Char) (s : String) : List String :=
  (splitOnCharList sep s.toList).map List.asString

/-- Python `s.strip()`: drop whitespace from both ends. -/
def pyStrip (s : String) : String :=
  (((s.toList.dropWhile Char.isWhitespace).reverse.dropWhile
      Char.isWhitespace).reverse).asString

/-- One attribute record `{"header": …, "desc": …, "units": …}`. -/
structure Attr where
  header : String
  desc : String
  units : String
deriving DecidableEq, Repr

/-- The loop over attribute lines (lines 2+ of the header file).
`none` models the `ValueError` raised by unpacking a split of length
other than 3 in the `else` branch. -/
def parseAttrLines : List String → Option (List Attr)
  | [] => some []
  | line :: rest =>
    if (pySplit '-' line).length = 2 then
      -- `units = ""` is computed but the append is in the other branch
      parseAttrLines rest
    else
      match pySplit '-' line with
      | [name, desc, units] =>
        (parseAttrLines rest).map
          (fun attrs =>
            { header := pyStrip name, desc := pyStrip desc,
              units := pyStrip units } :: attrs)
      | _ => none

/-- `Ship.parse_headers`, taking the file's lines (already
newline-free, as after `h.replace("\n", "")`).  Empty lines are
filtered out; the result is `(headers, attributes)`, or `none` when the
Python function raises. -/
def parse_headers (lines : List String) : Option (List String × List Attr) :=
  match lines.filter (fun h => h.length > 0) with
  | _title :: names :: attrLines =>
    (parseAttrLines attrLines).map
      (fun attrs => ((pySplit ',' names).map pyStrip, attrs))
  | _ => none

/-! ## Buoy raw-line parsing (`Buoy.parse_data`, utils.py lines 397-444)

The source reads each file with
`pd.read_csv(file, names=columns, delim_whitespace=True,
on_bad_lines='skip')`, where `columns` has 14 names.  Per the pandas
semantics this embedding follows:

* a blank line (no tokens) yields no row;
* a line with more than 14 whitespace-separated tokens is a "bad line"
  (more fields than column names) and is skipped;
* a line with 1 to 14 tokens yields exactly one row, the missing
  trailing fields filled with NaN (`none`). -/

/-- `df.replace(' NAN', 'NaN')` on one cell. -/
def replaceSpaceNAN (s : String) : String := if s = " NAN" then "NaN" else s

/-- `df.replace('NAN', 'NaN')` on one cell. -/
def replaceNAN (s : String) : String := if s = "NAN" then "NaN" else s

/-- `df.replace('NaN', np.nan)` on one cell: the canonical token
becomes the numeric missing value. -/
def replaceNaNToken (s : String) : Option String :=
  if s = "NaN" then none else some s

/-- The three successive sentinel replacements applied to one cell. -/
def normalizeSentinels (s : String) : Option String :=
  replaceNaNToken (replaceNAN (replaceSpaceNAN s))

/-- Digit characters to their value, `none` otherwise. -/
def digitVal (c : Char) : Option ℕ :=
  if c.isDigit then some (c.toNat - 48) else none

/-- Parse a nonempty all-digit string as a natural number. -/
def parseNatStr (s : String) : Option ℕ :=
  match s.toList with
  | [] => none
  | cs =>
    cs.foldl
      (fun acc c => acc.bind (fun n => (digitVal c).map (fun d => 10 * n + d)))
      (some 0)

/-- Model of `pd.to_numeric` on a plain unsigned decimal literal
(`"12"`, `"1.0"`): `none` when the cell does not parse. -/
def toNumericCell (s : String) : Option ℚ :=
  match pySplit '.' s with
  | [w] => (parseNatStr w).map (fun n => (n : ℚ))
  | [w, f] =>
    (parseNatStr w).bind (fun n =>
      (parseNatStr f).map (fun m => (n : ℚ) + (m : ℚ) / 10 ^ f.toList.length))
  | _ => none

/-- `pd.to_numeric(…, errors='coerce')` on a cell that may already be
NaN: NaN stays NaN, an unparseable string becomes NaN. -/
def toNumericCoerce (c : Option String) : Option ℚ := c.bind toNumericCell

/-- The sentinel-normalization-then-coercion pipeline applied to one
raw column, as `Ship.process_data` does before fusion. -/
def coerceColumn (col : List String) : List (Option ℚ) :=
  col.map (fun s => toNumericCoerce (normalizeSentinels s))

/-! ## Unit conversions (utils.py lines 23-139)

Python floats are modelled as real numbers.  `np.mod(x, 360.0)` is
`x - 360 * ⌊x / 360⌋`; `np.arctan2(x1, x2)` is the angle of the point
`(x2, x1)` in `(-π, π]`, i.e. `Complex.arg (x2 + x1 * I)` (both send
`(0, 0)` to `0` when both zeros are positive).

The reals have a single zero, so IEEE signed zeros are outside this
model: in the program `0.0 * c` is `-0.0` for `c < 0`, and
`atan2(+0.0, -0.0) = π`, while the model collapses both zeros.  The
two agree wherever no negative zero arises; concrete zero-speed
evaluations below are therefore made only at inputs whose `sin` and
`cos` round to nonnegative floats (e.g. direction 90, where
`sin = 1.0` and `cos` rounds to `6.12e-17 > 0`, so the program's
components are both `+0.0`). -/

noncomputable section

/-- `np.mod(x, 360.0)`: wrap an angle into `[0, 360)`. -/
def wrap360 (x : ℝ) : ℝ := x - 360 * ⌊x / 360⌋

/-- `np.deg2rad`. -/
def deg2rad (d : ℝ) : ℝ := d * (Real.pi / 180)

/-- `np.degrees`. -/
def rad2deg (r : ℝ) : ℝ := r * (180 / Real.pi)

/-- `np.arctan2(x1, x2)`: the angle in `(-π, π]` of the point with
abscissa `x2` and ordinate `x1`. -/
def arctan2 (x1 x2 : ℝ) : ℝ := Complex.arg ⟨x2, x1⟩

/-- `md2vect(wspd, wdir)` (utils.py lines 23-54): north and east wind
components from magnitude and direction; the direction is wrapped into
`[0, 360)` and converted to radians first. -/
def md2vect (wspd wdir : ℝ) : ℝ × ℝ :=
  let wdir_rad := deg2rad (wrap360 wdir)
  (wspd * Real.sin wdir_rad, wspd * Real.cos wdir_rad)

/-- `vect2md(vx, vy)` (utils.py lines 57-88): speed and direction from
north and east components; the `arctan2` angle in degrees is wrapped
into `[0, 360)`. -/
def vect2md (vx vy : ℝ) : ℝ × ℝ :=
  (Real.sqrt (vx ^ 2 + vy ^ 2), wrap360 (rad2deg (arctan2 vx vy)))

/-- `bpr_adjust(bpr, atmp, zbpr, znew)` (utils.py lines 91-100):
hydrostatic barometric correction
`bpr * exp(-g * (znew - zbpr) / (Ra * (atmp + 273.15)))` with
`g = 9.81`, `Ra = 287.05`. -/
def bpr_adjust (bpr atmp zbpr znew : ℝ) : ℝ :=
  bpr * Real.exp (-9.81 * (znew - zbpr) / (287.05 * (atmp + 273.15)))

/-- Saturated vapor pressure by the Buck formula (utils.py line 125):
`es = 6.1121 * exp(17.502 * atmp / (atmp + 240.97)) * (1.0007 + 3.46e-6 * bpr)`. -/
def es_buck (atmp bpr : ℝ) : ℝ :=
  6.1121 * Real.exp (17.502 * atmp / (atmp + 240.97)) * (1.0007 + 3.46e-6 * bpr)

/-- The sea-surface adjustment of `es` (utils.py line 128):
`es = (1.0 - 0.02 * sflag) * es`, with `sflag` the integer flag
(1 at the sea interface, 0 otherwise). -/
def es_surface (atmp bpr : ℝ) (sflag : ℕ) : ℝ :=
  (1.0 - 0.02 * (sflag : ℝ)) * es_buck atmp bpr

/-- `rh2q(atmp, bpr, hrh, sflag)` (utils.py lines 103-139): specific
humidity in g/kg from relative humidity; vapor pressure is
`e = es * hrh / 100`, overridden to `e = es` when `sflag == 1`. -/
def rh2q (atmp bpr hrh : ℝ) (sflag : ℕ) : ℝ :=
  let es := es_surface atmp bpr sflag
  let e := if sflag = 1 then es else es * hrh / 100
  0.62197 * e / (bpr - 0.378 * e) * 1000

end

/-! ## Twinned-sensor fusion (`Ship.process_data`, utils.py line 332)

`df[["WXTS_Ta", "WXTP_Ta"]].mean(axis=1)` takes the row-wise mean of
the two columns with pandas' default `skipna=True`: NaN entries are
skipped, so one missing value yields the other value and two missing
values yield NaN. -/

/-- Row-wise mean of a two-column pair under pandas `skipna=True`. -/
noncomputable def pairMean (a b : Option ℝ) : Option ℝ :=
  match a, b with
  | some x, some y => some ((x + y) / 2)
  | some x, none => some x
  | none, some y => some y
  | none, none => none

/-- The fused `atmp` column from the two air-temperature columns
`WXTS_Ta` and `WXTP_Ta`. -/
noncomputable def fuseColumns (xs ys : List (Option ℝ)) : List (Option ℝ) :=
  List.zipWith pairMean xs ys


/-! ## Helper lemmas -/

/-- A line whose hyphen split has neither 2 nor 3 parts makes the
attribute loop raise (`none`), wherever it sits in the list. -/
theorem parseAttrLines_eq_none_of_bad {l : List String} {line : String}
    (hmem : line ∈ l) (h2 : (pySplit '-' line).length ≠ 2)
    (h3 : (pySplit '-' line).length ≠ 3) :
    parseAttrLines l = none := by
  induction l with
  | nil => cases hmem
  | cons hd tl ih =>
    rcases List.mem_cons.mp hmem with rfl | hmem'
    · rw [parseAttrLines, if_neg h2]
      split
      · rename_i name desc units heq
        exact absurd (by rw [heq]; rfl) h3
      · rfl
    · rw [parseAttrLines, ih hmem']
      split
      · rfl
      · split
        · rfl
        · rfl

/-! ## Claims about the header parser -/

/-- C1: on the header file `title / A,B,C / A - desc A - units A /
B - desc B` the code returns headers `["A","B","C"]` but only the
single 3-part attribute record for `A`: the `attributes.append` call
sits inside the 3-part branch, so the well-formed 2-part line
`B - desc B` computes `units = ""` and then contributes no record,
contradicting the claimed output. -/
theorem C1_two_part_attr_line_dropped :
    parse_headers ["title", "A,B,C", "A - desc A - units A", "B - desc B"] =
      some (["A", "B", "C"],
        [{ header := "A", desc := "desc A", units := "units A" }]) := by
  decide

/-- C4 counterexample: a header file whose third line has no hyphen
makes the parser raise (`ValueError` from unpacking a 1-part split),
modelled as `none` — it is not silently dropped. -/
theorem C4_counterexample :
    parse_headers ["title", "A,B", "no hyphen here"] = none := by
  decide

/-- C4 (amended): an attribute line whose hyphen split has neither 2
nor 3 parts makes the whole parse fail (the tuple unpacking raises
`ValueError`); the line is not silently dropped and no result is
returned. -/
theorem C4_amended_bad_attr_line_raises (title names : String) (ls : List String)
    (line : String) (hmem : line ∈ ls) (hline : line.length > 0)
    (htitle : title.length > 0) (hnames : names.length > 0)
    (h2 : (pySplit '-' line).length ≠ 2) (h3 : (pySplit '-' line).length ≠ 3) :
    parse_headers (title :: names :: ls) = none := by
  have hfilter : (title :: names :: ls).filter (fun h => h.length > 0) =
      title :: names :: ls.filter (fun h => h.length > 0) := by
    simp only [List.filter]
    rw [decide_eq_true htitle, decide_eq_true hnames]
  have hattr : parseAttrLines (ls.filter (fun h => h.length > 0)) = none :=
    parseAttrLines_eq_none_of_bad
      (List.mem_filter.mpr ⟨hmem, decide_eq_true hline⟩) h2 h3
  rw [parse_headers, hfilter]
  show ((parseAttrLines (ls.filter (fun h => h.length > 0))).map
      (fun attrs => ((pySplit ',' names).map pyStrip, attrs))) = none
  rw [hattr]
  rfl

/-- C4 witness: the amended theorem at the concrete file
`["t", "A,B", "junk"]`, whose third line splits into 1 part. -/
theorem C4_witness : parse_headers ["t", "A,B", "junk"] = none :=
  C4_amended_bad_attr_line_raises "t" "A,B" ["junk"] "junk"
    (by decide) (by decide) (by decide) (by decide) (by decide) (by decide)

/-- C10: when the header file has fewer than two non-empty lines, the
column-name line is never reached, `headers` is never bound, and the
function fails (raises `UnboundLocalError`, modelled as `none`):
returning normally requires at least two non-empty lines. -/
theorem C10_needs_two_nonempty_lines (lines : List String)
    (h : (lines.filter (fun l => l.length > 0)).length < 2) :
    parse_headers lines = none := by
  rw [parse_headers]
  rcases hf : lines.filter (fun l => l.length > 0) with _ | ⟨a, _ | ⟨b, t⟩⟩
  · rw [hf]
  · rw [hf]
  · rw [hf] at h
    simp at h
    omega

/-- C10 witness: a one-line header file fails to parse. -/
theorem C10_witness :
    ((["title"].filter (fun l => l.length > 0)).length < 2) ∧
      parse_headers ["title"] = none :=
  ⟨by decide, C10_needs_two_nonempty_lines ["title"] (by decide)⟩

/-! ## Claims about the buoy raw-line parser -/

/-- C8: the sentinel tokens `" NAN"` and `"NAN"` are both rewritten to
the numeric missing value before coercion, and the column
`["1.0", " NAN", "NAN"]` coerces to `[1.0, NaN, NaN]`. -/
theorem C8_sentinel_normalization :
    normalizeSentinels " NAN" = none ∧ normalizeSentinels "NAN" = none ∧
      coerceColumn ["1.0", " NAN", "NAN"] = [some 1, none, none] := by
  refine ⟨by decide, by decide, ?_⟩
  simp [coerceColumn, normalizeSentinels, replaceSpaceNAN, replaceNAN,
    replaceNaNToken, toNumericCoerce, toNumericCell, pySplit, splitOnCharList,
    parseNatStr, digitVal, List.asString]

/-- C7: twinned-sensor fusion averages pairwise with missing values
skipped — on the scenario columns `WXTS_Ta = [20.0, NaN]`,
`WXTP_Ta = [22.0, 18.0]` the fused column is `[21.0, 18.0]`; in
general one missing value yields the other value, two present values
yield their mean, and two missing values yield NaN. -/
theorem C7_pair_fusion :
    fuseColumns [some 20, none] [some 22, some 18] = [some 21, some 18] ∧
    (∀ x y : ℝ, pairMean (some x) (some y) = some ((x + y) / 2)) ∧
    (∀ x : ℝ, pairMean (some x) none = some x) ∧
    (∀ y : ℝ, pairMean none (some y) = some y) ∧
    pairMean (none : Option ℝ) none = none := by
  refine ⟨?_, fun x y => rfl, fun x => rfl, fun y => rfl, rfl⟩
  simp [fuseColumns, pairMean]
  norm_num

/-! ## Claims about the humidity and pressure formulas -/

/-- C3 counterexample: at `atmp = 0`, `bpr = 0` and `sflag = 0` (not at
the sea surface) the saturated vapor pressure is *not* multiplied by
0.98 — the source applies the factor `(1 - 0.02 * sflag)`, which is 1
when the flag is 0. -/
theorem C3_counterexample : es_surface 0 0 0 ≠ 0.98 * es_buck 0 0 := by
  have h : es_buck 0 0 = 6.1121 * 1.0007 := by
    rw [es_buck]
    norm_num [Real.exp_zero]
  rw [es_surface, h]
  norm_num

/-- C3 (amended): the 2% reduction of `es` is applied exactly when the
at-sea-surface flag is set — with `sflag = 1` the factor 0.98 is
applied, with `sflag = 0` no reduction is applied (the source comment:
saturated pressure is 2% less due to salt right at the sea
interface). -/
theorem C3_amended_es_reduction (atmp bpr : ℝ) :
    es_surface atmp bpr 1 = 0.98 * es_buck atmp bpr ∧
      es_surface atmp bpr 0 = es_buck atmp bpr := by
  constructor <;>
    · rw [es_surface]
      push_cast
      ring

/-- C6: with the at-sea-surface flag set, `rh2q` ignores the supplied
relative humidity entirely: any two humidity arguments give the same
specific humidity (the branch `if sflag == 1: e = es` overrides
`e = es * hrh / 100`). -/
theorem C6_rh_noninterference (atmp bpr hrh hrh' : ℝ) :
    rh2q atmp bpr hrh 1 = rh2q atmp bpr hrh' 1 := by
  rw [rh2q, rh2q]
  simp

/-- C9 counterexample: with `bpr = 0` the hydrostatic correction is 0
at every height, so raising the target height does not strictly
decrease it even though the absolute temperature is positive — the
claim fails for "every pressure". -/
theorem C9_counterexample :
    (0 : ℝ) + 273.15 > 0 ∧ (0 : ℝ) < 1 ∧
      ¬ bpr_adjust 0 0 0 1 < bpr_adjust 0 0 0 0 := by
  refine ⟨by norm_num, by norm_num, ?_⟩
  rw [bpr_adjust, bpr_adjust, zero_mul, zero_mul]
  exact lt_irrefl 0

/-- C9 (amended): for positive pressure and positive absolute
temperature, the hydrostatic correction is strictly decreasing in the
target height: `h1 < h2` implies
`bpr_adjust p T z h2 < bpr_adjust p T z h1`. -/
theorem C9_amended_strict_antitone (bpr atmp zbpr h1 h2 : ℝ)
    (hbpr : 0 < bpr) (htemp : 0 < atmp + 273.15) (hh : h1 < h2) :
    bpr_adjust bpr atmp zbpr h2 < bpr_adjust bpr atmp zbpr h1 := by
  rw [bpr_adjust, bpr_adjust]
  have hden : 0 < 287.05 * (atmp + 273.15) := by positivity
  apply mul_lt_mul_of_pos_left _ hbpr
  apply Real.exp_lt_exp.mpr
  rw [div_lt_div_iff_of_pos_right hden]
  nlinarith

/-- C9 witness: the amended monotonicity at pressure 1 mb, temperature
0 deg C, sensor height 0 m, target heights 0 m and 1 m. -/
theorem C9_witness : bpr_adjust 1 0 0 1 < bpr_adjust 1 0 0 0 :=
  C9_amended_strict_antitone 1 0 0 0 1 (by norm_num) (by norm_num) (by norm_num)

/-! ## Claims about the wind vector round trip -/

/-- `np.mod(x, 360.0)` is nonnegative. -/
theorem wrap360_nonneg (x : ℝ) : 0 ≤ wrap360 x := by
  have h := Int.floor_le (x / 360)
  rw [wrap360]
  nlinarith

/-- `np.mod(x, 360.0)` is below 360. -/
theorem wrap360_lt (x : ℝ) : wrap360 x < 360 := by
  have h := Int.lt_floor_add_one (x / 360)
  rw [wrap360]
  nlinarith

/-- Angles already in `[0, 360)` are fixed by the wrap. -/
theorem wrap360_eq_self {x : ℝ} (h0 : 0 ≤ x) (h1 : x < 360) : wrap360 x = x := by
  have hfloor : ⌊x / 360⌋ = 0 := by
    rw [Int.floor_eq_zero_iff, Set.mem_Ico]
    constructor
    · positivity
    · rw [div_lt_one (by norm_num : (0 : ℝ) < 360)]
      exact h1
  rw [wrap360, hfloor]
  simp

/-- The wrap is invariant under subtracting a full turn. -/
theorem wrap360_sub_360 (x : ℝ) : wrap360 (x - 360) = wrap360 x := by
  have hdiv : (x - 360) / 360 = x / 360 - (1 : ℤ) := by
    push_cast
    ring
  rw [wrap360, wrap360, hdiv, Int.floor_sub_int]
  push_cast
  ring

/-- Round trip of the conversions for a direction already in
`[0, 360)` and a strictly positive speed. -/
theorem vect2md_md2vect_aux (s w : ℝ) (hs : 0 < s) (hw0 : 0 ≤ w)
    (hw1 : w < 360) :
    vect2md (s * Real.sin (deg2rad w)) (s * Real.cos (deg2rad w)) = (s, w) := by
  have hpi := Real.pi_pos
  set θ := deg2rad w with hθ
  have hθval : θ = w * (Real.pi / 180) := by rw [hθ, deg2rad]
  have hθ0 : 0 ≤ θ := by
    rw [hθval]
    positivity
  have hθ2 : θ < 2 * Real.pi := by
    rw [hθval]
    nlinarith [mul_pos (by linarith : (0 : ℝ) < 360 - w) hpi]
  rw [vect2md]
  have hsq : (s * Real.sin θ) ^ 2 + (s * Real.cos θ) ^ 2 = s ^ 2 := by
    have h := Real.sin_sq_add_cos_sq θ
    linear_combination s ^ 2 * h
  have hspeed : Real.sqrt ((s * Real.sin θ) ^ 2 + (s * Real.cos θ) ^ 2) = s := by
    rw [hsq, Real.sqrt_sq hs.le]
  have hmk : (⟨s * Real.cos θ, s * Real.sin θ⟩ : ℂ) =
      (s : ℂ) * ⟨Real.cos θ, Real.sin θ⟩ := by
    rw [Complex.ofReal_mul']
  have harg1 : arctan2 (s * Real.sin θ) (s * Real.cos θ) =
      Complex.arg ⟨Real.cos θ, Real.sin θ⟩ := by
    rw [arctan2, hmk, Complex.arg_real_mul _ hs]
  have hpne : Real.pi ≠ 0 := Real.pi_ne_zero
  rcases le_or_lt θ Real.pi with hle | hgt
  · have hmem : θ ∈ Set.Ioc (-Real.pi) Real.pi :=
      Set.mem_Ioc.mpr ⟨by linarith, hle⟩
    have harg : Complex.arg ⟨Real.cos θ, Real.sin θ⟩ = θ := by
      rw [Complex.mk_eq_add_mul_I, Complex.ofReal_cos, Complex.ofReal_sin]
      exact Complex.arg_cos_add_sin_mul_I hmem
    have hdir : rad2deg (arctan2 (s * Real.sin θ) (s * Real.cos θ)) = w := by
      rw [harg1, harg, rad2deg, hθval]
      field_simp
    rw [hspeed, hdir, wrap360_eq_self hw0 hw1]
  · have hc : Real.cos θ = Real.cos (θ - 2 * Real.pi) := (Real.cos_sub_two_pi θ).symm
    have hsn : Real.sin θ = Real.sin (θ - 2 * Real.pi) := (Real.sin_sub_two_pi θ).symm
    have hmem : θ - 2 * Real.pi ∈ Set.Ioc (-Real.pi) Real.pi :=
      Set.mem_Ioc.mpr ⟨by linarith, by linarith⟩
    have harg : Complex.arg ⟨Real.cos θ, Real.sin θ⟩ = θ - 2 * Real.pi := by
      rw [hc, hsn, Complex.mk_eq_add_mul_I, Complex.ofReal_cos, Complex.ofReal_sin]
      exact Complex.arg_cos_add_sin_mul_I hmem
    have hdir : rad2deg (arctan2 (s * Real.sin θ) (s * Real.cos θ)) = w - 360 := by
      rw [harg1, harg, rad2deg, hθval]
      field_simp
      ring
    rw [hspeed, hdir, wrap360_sub_360, wrap360_eq_self hw0 hw1]

/-- C5 counterexample: at speed 0 and direction 90 the round trip
loses the direction — `md2vect(0, 90)` is `(0, 0)` (in the program
both components are `+0.0`: `sin(rad 90) = 1.0` and `cos(rad 90)`
rounds to a small positive float, so `0.0 * c` keeps the positive
sign), and `vect2md(0, 0)` returns direction `arctan2(0, 0) = 0`, not
`90 = 90 mod 360` — far outside any floating tolerance — so the
claimed law fails for speed ≥ 0 at speed 0. -/
theorem C5_counterexample :
    vect2md (md2vect 0 90).1 (md2vect 0 90).2 ≠ (0, wrap360 90) := by
  have hm : md2vect 0 90 = (0, 0) := by
    simp [md2vect]
  have harg : arctan2 0 0 = 0 := by
    rw [arctan2, show (⟨(0 : ℝ), (0 : ℝ)⟩ : ℂ) = 0 from Complex.ext rfl rfl]
    exact Complex.arg_zero
  have h90 : wrap360 (90 : ℝ) = 90 := wrap360_eq_self (by norm_num) (by norm_num)
  have h0 : wrap360 (0 : ℝ) = 0 := wrap360_eq_self le_rfl (by norm_num)
  have h1 : (md2vect 0 90).1 = 0 := by rw [hm]
  have h2 : (md2vect 0 90).2 = 0 := by rw [hm]
  rw [h1, h2, h90, vect2md, harg, rad2deg, zero_mul, h0]
  intro hcontra
  have hsnd := congrArg Prod.snd hcontra
  norm_num at hsnd

/-- C5 (amended): for every speed strictly greater than 0 and every
direction `d`, converting to (north, east) components and back yields
exactly `(speed, d mod 360)`; at speed 0 the direction information is
not recoverable from the zero components and the law can fail, as at
direction 90. -/
theorem C5_amended_round_trip (s d : ℝ) (hs : 0 < s) :
    vect2md (md2vect s d).1 (md2vect s d).2 = (s, wrap360 d) := by
  have h1 : (md2vect s d).1 = s * Real.sin (deg2rad (wrap360 d)) := rfl
  have h2 : (md2vect s d).2 = s * Real.cos (deg2rad (wrap360 d)) := rfl
  rw [h1, h2]
  exact vect2md_md2vect_aux s (wrap360 d) hs (wrap360_nonneg d) (wrap360_lt d)

/-- C5 witness: the amended round trip at speed 1 and direction 0. -/
theorem C5_witness : vect2md (md2vect 1 0).1 (md2vect 1 0).2 = (1, 0) := by
  have h := C5_amended_round_trip 1 0 one_pos
  rwa [wrap360_eq_self le_rfl (by norm_num)] at h

end WeatherUtils
